import Mathlib

/-!
Verification of the voice_lang agent core.

This file gives a shallow embedding of the agent orchestration engine of the
repository (`src/src/agent/core.py`, `executor.py`, `planner.py`,
`evaluator.py`, `orchestrator.py`, `src/src/config.py`) and proves or refutes
the frozen claims C1..C10 about it.

Modelling conventions:
* Python in-place mutation becomes explicit state passing: a method that
  mutates `self` or an argument and may raise an exception becomes a Lean
  function returning the mutated value paired with an `Except`.
* Timestamps (`datetime.now()`, `created_at`, `updated_at`, `completed_at`)
  are dropped; no claim mentions them.
* JSON-like Python values (results of `json.loads`, tool results, the task
  dictionaries produced by the planner) are modelled by `PyVal`.
* The external reasoning oracle and the registered tools are modelled as
  environments quantified over in the theorems, as the claims require
  ("for every behaviour of the registered tools").
-/

namespace VoiceLang

/-- JSON-like Python value. `num` covers the integer literals that occur in
the embedded code (`limit: 5`); floats do not occur in any claim. -/
inductive PyVal where
  | null
  | bool (b : Bool)
  | num (n : Int)
  | str (s : String)
  | arr (items : List PyVal)
  | obj (fields : List (String × PyVal))

/-- Python truthiness (`if not x:` tests) on `PyVal`. -/
def pyTruthy : PyVal → Bool
  | .null => false
  | .bool b => b
  | .num n => n != 0
  | .str s => s != ""
  | .arr l => !l.isEmpty
  | .obj l => !l.isEmpty

/-- `TaskStatus` from `core.py`. -/
inductive TaskStatus where
  | pending
  | in_progress
  | completed
  | failed
  | blocked
deriving DecidableEq

/-- `Task` dataclass from `core.py` (timestamps dropped).  Field values that
the oracle could in principle supply with non-string types (`id`,
`description`, `tool_name`, `dependencies` entries) are modelled at string
type: the heuristic fallback plan and every claim use only string-typed
fields. -/
structure Task where
  id : String
  description : String
  tool_name : Option String := none
  tool_params : List (String × PyVal) := []
  status : TaskStatus := .pending
  result : Option PyVal := none
  error : Option String := none
  dependencies : List String := []

/-- `Plan` dataclass from `core.py` (timestamps dropped). -/
structure Plan where
  id : String
  goal : String
  tasks : List Task := []
  current_task_index : Nat := 0
  is_complete : Bool := false
  revision_count : Nat := 0

/-- `Plan.get_current_task`. -/
def Plan.getCurrentTask (p : Plan) : Option Task :=
  if p.current_task_index < p.tasks.length then p.tasks[p.current_task_index]? else none

/-- `Plan.advance` (the Bool it returns is never used by the executor loop
and is omitted). -/
def Plan.advance (p : Plan) : Plan :=
  let q : Plan := { p with current_task_index := p.current_task_index + 1 }
  if q.current_task_index ≥ q.tasks.length then { q with is_complete := true } else q

/-- Replace the element at index `n` by `f` of it (helper for the executor's
in-place updates of `current_task`). -/
def modifyAt {α : Type} (f : α → α) : Nat → List α → List α
  | _, [] => []
  | 0, t :: ts => f t :: ts
  | n + 1, t :: ts => t :: modifyAt f n ts

/-- Apply `f` to the task at `current_task_index` (Python mutates the task
object in place through the `current_task` alias). -/
def updateCurrent (p : Plan) (f : Task → Task) : Plan :=
  { p with tasks := modifyAt f p.current_task_index p.tasks }

/-- One entry of `results["task_results"]` in `Executor.execute_plan`. -/
structure ResultEntry where
  task_id : String
  status : String
  result : Option PyVal := none
  error : Option String := none
  recoverable : Option Bool := none

/-- The `results` dictionary built by `Executor.execute_plan`. -/
structure ExecResults where
  plan_id : String
  goal : String
  tasks_completed : Nat
  tasks_failed : Nat
  task_results : List ResultEntry
  final_status : String

/-- `ExecutionError(message, task_id, recoverable)` from `executor.py`. -/
structure ExecError where
  msg : String
  task_id : String
  recoverable : Bool

/-- Environment for the executor: which tool names are registered (a tool
object returned by `ToolRegistry.get` is truthy exactly when the name is
registered), and the outcome of invoking the tool on the current task.
`run` receives the index of the task being executed, so it can model any
behaviour of the tools, including behaviours that change over the run;
parameter preparation (`_prepare_tool_params`) and the context threading of
`_update_context_from_result` are absorbed into this arbitrary behaviour,
which is what claim C3 quantifies over. `.error m` models the tool raising
an exception with message `m`. -/
structure ExecEnv where
  registered : String → Bool
  run : Nat → Task → Except String PyVal

/-- The tool-less "reasoning step" result of `Executor.execute_task`. -/
def reasoningStepResult : PyVal :=
  .obj [("status", .str "completed"), ("message", .str "Reasoning step completed")]

/-- `Executor.execute_task`.  The task's status is set to IN_PROGRESS on
entry (the loop applies the same update to the plan's copy); `if not
task.tool_name` is Python-falsy for both `None` and the empty string. -/
def execute_task (env : ExecEnv) (idx : Nat) (t0 : Task) : Except ExecError PyVal :=
  let t : Task := { t0 with status := .in_progress }
  match t.tool_name with
  | none => .ok reasoningStepResult
  | some name =>
    if name = "" then .ok reasoningStepResult
    else if env.registered name then
      match env.run idx t with
      | .ok r => .ok r
      | .error m => .error { msg := m, task_id := t.id, recoverable := true }
    else .error { msg := "Tool not found: " ++ name, task_id := t.id, recoverable := false }

/-- Whether one declared dependency id is met: some task of the plan has
that id and its status is COMPLETED (`Executor._check_dependencies` body). -/
def depMet (p : Plan) (depId : String) : Bool :=
  match p.tasks.find? (fun t => t.id == depId) with
  | some dt => match dt.status with | .completed => true | _ => false
  | none => false

/-- `Executor._check_dependencies` (an empty dependency list returns True). -/
def check_dependencies (t : Task) (p : Plan) : Bool :=
  t.dependencies.all (depMet p)

/-- The `task_results` entry appended for a blocked task. -/
def blockedEntry (t : Task) : ResultEntry :=
  { task_id := t.id, status := "blocked", error := some "Dependencies not met" }

/-- The `while not plan.is_complete` loop of `Executor.execute_plan`, with
fuel.  Every iteration that continues advances `current_task_index` by one,
so `plan.tasks.length + 1` fuel (supplied by `execute_plan`) always reaches
the loop's own exit conditions; at fuel 0 the function returns the state
unchanged, exactly what the exhausted loop would return. -/
def execPlanLoop (env : ExecEnv) : Nat → Plan → ExecResults → Plan × ExecResults
  | 0, plan, results => (plan, results)
  | fuel + 1, plan, results =>
    if plan.is_complete then (plan, results)
    else
      match plan.getCurrentTask with
      | none => (plan, results)
      | some current_task =>
        if check_dependencies current_task plan then
          let planIP := updateCurrent plan (fun t => { t with status := .in_progress })
          match execute_task env plan.current_task_index current_task with
          | .ok task_result =>
            let plan' := updateCurrent planIP
              (fun t => { t with status := .completed, result := some task_result })
            let results' := { results with
              tasks_completed := results.tasks_completed + 1,
              task_results := results.task_results ++
                [{ task_id := current_task.id, status := "success", result := some task_result }] }
            execPlanLoop env fuel plan'.advance results'
          | .error e =>
            let plan' := updateCurrent planIP
              (fun t => { t with status := .failed, error := some e.msg })
            let results' := { results with
              tasks_failed := results.tasks_failed + 1,
              task_results := results.task_results ++
                [{ task_id := current_task.id, status := "failed",
                   error := some e.msg, recoverable := some e.recoverable }] }
            if e.recoverable then execPlanLoop env fuel plan'.advance results'
            else (plan', { results' with final_status := "failed" })
        else
          let plan' := updateCurrent plan (fun t => { t with status := .blocked })
          let results' := { results with
            task_results := results.task_results ++ [blockedEntry current_task] }
          execPlanLoop env fuel plan'.advance results'

/-- The initial `results` dictionary of `Executor.execute_plan`. -/
def initResults (plan : Plan) : ExecResults :=
  { plan_id := plan.id, goal := plan.goal, tasks_completed := 0, tasks_failed := 0,
    task_results := [], final_status := "success" }

/-- `Executor.execute_plan`: initial results record, the loop, and the final
`partial_success` adjustment.  Returns the mutated plan together with the
results dictionary. -/
def execute_plan (env : ExecEnv) (plan : Plan) : Plan × ExecResults :=
  let out := execPlanLoop env (plan.tasks.length + 1) plan (initResults plan)
  let res := out.2
  let res := if 0 < res.tasks_failed ∧ res.final_status ≠ "failed"
             then { res with final_status := "partial_success" } else res
  (out.1, res)

/-- A `task_results` entry recording a non-recoverable `ExecutionError`. -/
def isFatalEntry (e : ResultEntry) : Bool :=
  e.status == "failed" && e.recoverable == some false

/-- At least one non-recoverable `ExecutionError` was recorded. -/
def hasFatal (l : List ResultEntry) : Bool :=
  l.any isFatalEntry

/-! ### State machine (`core.py`) -/

/-- `AgentState` from `core.py`. -/
inductive AgentState where
  | idle
  | listening
  | understanding
  | planning
  | executing
  | evaluating
  | responding
  | waiting_for_input
  | error_recovery
  | terminated
deriving DecidableEq

/-- The fixed `VALID_TRANSITIONS` table of `StateMachine`. -/
def VALID_TRANSITIONS : AgentState → List AgentState
  | .idle => [.listening, .terminated]
  | .listening => [.understanding, .error_recovery, .idle]
  | .understanding => [.planning, .waiting_for_input, .error_recovery]
  | .planning => [.executing, .error_recovery, .waiting_for_input]
  | .executing => [.evaluating, .error_recovery, .waiting_for_input]
  | .evaluating => [.responding, .planning, .error_recovery]
  | .responding => [.idle, .listening, .waiting_for_input]
  | .waiting_for_input => [.listening, .idle, .terminated]
  | .error_recovery => [.error_recovery, .waiting_for_input, .idle, .responding, .terminated]
  | .terminated => []

/-- `StateTransition` log record (timestamp and metadata dropped). -/
structure StateTransition where
  from_state : AgentState
  to_state : AgentState
  trigger : String

/-- `StateMachine` state: current state and transition history.  Hooks are
instrumentation whose failures are caught and logged (`_execute_hooks`) and
which receive the transition record, not the machine, so they cannot affect
`current_state` or the history; they are not modelled. -/
structure StateMachine where
  current_state : AgentState
  transition_history : List StateTransition := []

/-- The `InvalidStateTransitionError` raised by `StateMachine.transition`;
its message names the source and target state, modelled structurally. -/
structure InvalidStateTransitionError where
  from_state : AgentState
  to_state : AgentState

/-- `StateMachine.can_transition`. -/
def can_transition (sm : StateMachine) (to_state : AgentState) : Bool :=
  if to_state = sm.current_state then true
  else (VALID_TRANSITIONS sm.current_state).contains to_state

/-- `StateMachine.transition`: a same-state transition is an idempotent
no-op returning True; an invalid transition raises before any mutation; a
valid one updates `current_state` and appends a history record. -/
def transition (sm : StateMachine) (to_state : AgentState) (trigger : String) :
    StateMachine × Except InvalidStateTransitionError Bool :=
  if to_state = sm.current_state then (sm, .ok true)
  else if ¬ can_transition sm to_state then
    (sm, .error { from_state := sm.current_state, to_state := to_state })
  else
    ({ current_state := to_state,
       transition_history := sm.transition_history ++
         [{ from_state := sm.current_state, to_state := to_state, trigger := trigger }] },
     .ok true)

/-! ### User profile and contradictions (`core.py`, `evaluator.py`) -/

/-- One `user_profile` dictionary entry.  The Python dict may lack the
`previous_value`, `contradiction_detected` and `resolved` keys; an absent
key reads back as `None`/falsy, modelled as `none`/`false` here
(`updated_at` dropped). -/
structure ProfileEntry (V : Type) where
  value : V
  source : String
  previous_value : Option V := none
  contradiction_detected : Bool := false
  resolved : Bool := false

/-- `user_profile`: insertion-ordered string-keyed dictionary. -/
def Profile (V : Type) := List (String × ProfileEntry V)

/-- Dictionary lookup (`self.user_profile.get(key)` / `key in ...`). -/
def profGet {V : Type} : Profile V → String → Option (ProfileEntry V)
  | [], _ => none
  | (k', e) :: rest, k => if k' = k then some e else profGet rest k

/-- Dictionary assignment `self.user_profile[key] = entry` (replaces the
existing binding in place, else appends). -/
def profSet {V : Type} : Profile V → String → ProfileEntry V → Profile V
  | [], k, e => [(k, e)]
  | (k', e') :: rest, k, e =>
    if k' = k then (k, e) :: rest else (k', e') :: profSet rest k e

/-- `AgentContext.update_profile(key, value, source)`: returns the updated
profile and the method's Bool result (True iff a contradiction was
detected). -/
def update_profile {V : Type} [DecidableEq V] (p : Profile V) (key : String) (value : V)
    (source : String) : Profile V × Bool :=
  match profGet p key with
  | some existing =>
    if existing.value ≠ value then
      (profSet p key
        { value := value, source := source, previous_value := some existing.value,
          contradiction_detected := true }, true)
    else
      (profSet p key { value := value, source := source }, false)
  | none => (profSet p key { value := value, source := source }, false)

/-- `ContradictionResolver.resolve_contradiction(context, key, confirmed_value)`
from `evaluator.py`: overwrites an existing entry with the confirmed value
tagged `source="user_confirmed"`, `contradiction_detected=False`,
`resolved=True`; returns whether resolution happened. -/
def resolve_contradiction {V : Type} (p : Profile V) (key : String) (confirmed_value : V) :
    Profile V × Bool :=
  match profGet p key with
  | some _ =>
    (profSet p key
      { value := confirmed_value, source := "user_confirmed", resolved := true }, true)
  | none => (p, false)

/-! ### Planner (`planner.py`) -/

/-- Exceptions that can escape the planner. -/
inductive PyErr where
  | jsonDecodeError
  | attributeError
  | typeError
  | planningLimitExceeded
deriving DecidableEq

/-- Abstraction of the raw oracle reply as seen by
`Planner._parse_plan_response`: either `json.loads(response)` succeeds with a
value, or it fails and the regex search for a `{...}` substring finds
nothing, or it fails, the regex matches, and the matched substring itself
either parses (`some v`) or raises `json.JSONDecodeError` again (`none`). -/
inductive ParseOutcome where
  | valid (v : PyVal)
  | invalidNoBrace
  | invalidBrace (inner : Option PyVal)

/-- `Planner._parse_plan_response`. -/
def parse_plan_response : ParseOutcome → Except PyErr PyVal
  | .valid v => .ok v
  | .invalidNoBrace =>
    .ok (.obj [("tasks", .arr []), ("missing_info", .arr []), ("clarifying_questions", .arr [])])
  | .invalidBrace (some v) => .ok v
  | .invalidBrace none => .error .jsonDecodeError

/-- Dictionary lookup on a field list (Python `dict.get`). -/
def assocGet : List (String × PyVal) → String → Option PyVal
  | [], _ => none
  | (k', v) :: rest, k => if k' = k then some v else assocGet rest k

/-- Dictionary assignment `d[k] = v` on a field list. -/
def assocSet : List (String × PyVal) → String → PyVal → List (String × PyVal)
  | [], k, v => [(k, v)]
  | (k', v') :: rest, k, v =>
    if k' = k then (k, v) :: rest else (k', v') :: assocSet rest k v

/-- The `tasks_are_valid` test of `create_plan`/`replan`:
`isinstance(tasks_raw, list) and len(tasks_raw) > 0 and all(isinstance(t, dict))`. -/
def tasksAreValid : Option PyVal → Bool
  | some (.arr l) => !l.isEmpty && l.all (fun t => match t with | .obj _ => true | _ => false)
  | _ => false

/-- Does `hay` start with `needle` (character-wise)? -/
def leadsWith : List Char → List Char → Bool
  | [], _ => true
  | _ :: _, [] => false
  | a :: as, b :: bs => (a == b) && leadsWith as bs

/-- Does the haystack contain the needle as a contiguous run? -/
def containsRun (needle : List Char) : List Char → Bool
  | [] => leadsWith needle []
  | c :: rest => leadsWith needle (c :: rest) || containsRun needle rest

/-- Python's `needle in hay` substring test. -/
def strContainsSub (needle hay : String) : Bool :=
  containsRun needle.toList hay.toList

/-- The `eligibility_cues` list of `Planner._heuristic_tasks`. -/
def eligibility_cues : List String :=
  ["eligible", "eligibility", "qualify", "qualification", "apply", "application",
   "தகுதி", "விண்ணப்ப", "திட்ட", "पात्र", "योजना"]

/-- The cue test of `Planner._heuristic_tasks`:
`goal_lower = (goal or "").strip().lower()` then
`any(cue in goal_lower for cue in eligibility_cues)`.  (Lean's `toLower`
lowercases ASCII; the cues are lowercase ASCII or caseless Indic script, so
the test agrees with Python on them.) -/
def wants_eligibility (goal : String) : Bool :=
  let goal_lower := goal.trim.toLower
  eligibility_cues.any (fun cue => strContainsSub cue goal_lower)

/-- The `tool_params` dictionary of the heuristic eligibility task. -/
def eligibilityParams : List (String × PyVal) :=
  [("age", .str "$context.profile.age"),
   ("income", .str "$context.profile.income"),
   ("gender", .str "$context.profile.gender"),
   ("caste_category", .str "$context.profile.caste_category"),
   ("state", .str "$context.profile.state"),
   ("is_farmer", .str "$context.profile.is_farmer"),
   ("is_bpl", .str "$context.profile.is_bpl"),
   ("education", .str "$context.profile.education"),
   ("occupation", .str "$context.profile.occupation"),
   ("family_size", .str "$context.profile.family_size"),
   ("has_land", .str "$context.profile.has_land"),
   ("land_size", .str "$context.profile.land_size"),
   ("is_widow", .str "$context.profile.is_widow"),
   ("is_disabled", .str "$context.profile.is_disabled")]

/-- The `tool_params` dictionary of the heuristic scheme-retrieval task. -/
def retrieverParams (goal : String) : List (String × PyVal) :=
  [("query", .str goal), ("state", .str "$context.profile.state"), ("limit", .num 5)]

/-- `Planner._heuristic_tasks`: the deterministic fallback task dictionaries. -/
def heuristic_tasks (goal : String) : List PyVal :=
  if wants_eligibility goal then
    [.obj [("id", .str "task_1"),
           ("description", .str "Check eligibility based on available profile information"),
           ("tool_name", .str "eligibility_checker"),
           ("tool_params", .obj eligibilityParams),
           ("dependencies", .arr [])],
     .obj [("id", .str "task_2"),
           ("description", .str "Retrieve relevant schemes for the user query"),
           ("tool_name", .str "scheme_retriever"),
           ("tool_params", .obj (retrieverParams goal)),
           ("dependencies", .arr [.str "task_1"])]]
  else
    [.obj [("id", .str "task_1"),
           ("description", .str "Retrieve relevant schemes for the user query"),
           ("tool_name", .str "scheme_retriever"),
           ("tool_params", .obj (retrieverParams goal)),
           ("dependencies", .arr [])]]

/-- `task_data.get(k, default)` read back at string type (non-string values
for these fields never arise from the heuristic fallback and are outside the
modelled value space, see `Task`). -/
def pyStrOr (v : Option PyVal) (d : String) : String :=
  match v with
  | some (.str s) => s
  | _ => d

/-- `task_data.get("tool_name")`: absent or `None` reads as `none`. -/
def pyStrOpt : Option PyVal → Option String
  | some (.str s) => some s
  | _ => none

/-- String elements of a `PyVal` (see `Task` on the value-space restriction). -/
def pyStr : PyVal → Option String
  | .str s => some s
  | _ => none

/-- The loop body of `Planner._create_tasks` (index `i` supplies the
`task_{i+1}` default id). -/
def create_tasks_go : Nat → List PyVal → Except PyErr (List Task)
  | _, [] => .ok []
  | i, d :: rest =>
    match d with
    | .obj fs =>
      match create_tasks_go (i + 1) rest with
      | .error e => .error e
      | .ok ts =>
        .ok ({ id := pyStrOr (assocGet fs "id") ("task_" ++ toString (i + 1)),
               description := pyStrOr (assocGet fs "description") "",
               tool_name := pyStrOpt (assocGet fs "tool_name"),
               tool_params := (match assocGet fs "tool_params" with
                               | some (.obj ps) => ps | _ => []),
               dependencies := (match assocGet fs "dependencies" with
                                | some (.arr ds) => ds.filterMap pyStr | _ => []) } :: ts)
    | _ => .error .attributeError

/-- `Planner._create_tasks`: builds `Task` records from the task
dictionaries.  A non-list argument cannot occur (callers guarantee a list)
and is mapped to a TypeError. -/
def create_tasks : PyVal → Except PyErr (List Task)
  | .arr l => create_tasks_go 0 l
  | _ => .error .typeError

/-- `if plan_data.get(k):` — the value, kept only when present and truthy. -/
def truthyOpt : Option PyVal → Option PyVal
  | some x => if pyTruthy x then some x else none
  | none => none

/-- What `Planner.create_plan` produces: the Plan plus the
`missing_info`/`clarifying_questions` values it stores into
`context.extracted_entities`. -/
structure CreatePlanOut where
  plan : Plan
  missing_info : Option PyVal := none
  clarifying_questions : Option PyVal := none

/-- `Planner.create_plan`.  The prompt construction and the oracle call are
abstracted into the reply `resp`; the fresh uuid-based id into `plan_id`.
`plan_data.get("tasks")` raises `AttributeError` when the parsed reply is
not a dictionary. -/
def create_plan (resp : ParseOutcome) (goal : String) (plan_id : String) :
    Except PyErr CreatePlanOut :=
  match parse_plan_response resp with
  | .error e => .error e
  | .ok plan_data =>
    match plan_data with
    | .obj fields0 =>
      let fields := if tasksAreValid (assocGet fields0 "tasks") then fields0
                    else assocSet fields0 "tasks" (.arr (heuristic_tasks goal))
      match create_tasks ((assocGet fields "tasks").getD (.arr [])) with
      | .error e => .error e
      | .ok tasks =>
        .ok { plan := { id := plan_id, goal := goal, tasks := tasks },
              missing_info := truthyOpt (assocGet fields "missing_info"),
              clarifying_questions := truthyOpt (assocGet fields "clarifying_questions") }
    | _ => .error .attributeError

/-- `Planner.replan`.  Python mutates `original_plan.revision_count` in
place before checking the ceiling; the first component of the result is the
passed-in plan as mutated, the second the method's outcome.  The oracle
reply is `resp`, the fresh plan id `new_id`, and
`settings.max_planning_iterations` is the `max_planning_iterations`
parameter. -/
def replan (max_planning_iterations : Nat) (resp : ParseOutcome) (new_id : String)
    (original_plan : Plan) : Plan × Except PyErr Plan :=
  let original_plan :=
    { original_plan with revision_count := original_plan.revision_count + 1 }
  if original_plan.revision_count > max_planning_iterations then
    (original_plan, .error .planningLimitExceeded)
  else
    match parse_plan_response resp with
    | .error e => (original_plan, .error e)
    | .ok plan_data =>
      match plan_data with
      | .obj fields0 =>
        let fields := if tasksAreValid (assocGet fields0 "tasks") then fields0
                      else assocSet fields0 "tasks" (.arr (heuristic_tasks original_plan.goal))
        match create_tasks ((assocGet fields "tasks").getD (.arr [])) with
        | .error e => (original_plan, .error e)
        | .ok tasks =>
          (original_plan,
           .ok { id := new_id, goal := original_plan.goal, tasks := tasks,
                 revision_count := original_plan.revision_count })
      | _ => (original_plan, .error .attributeError)

/-! ### Orchestrator error handling (`orchestrator.py`) -/

/-- The per-language error message tables of
`VoiceAgent._get_error_message`. -/
def error_messages : String → List (String × String)
  | "marathi" =>
    [("invalid_session", "सत्र अवैध आहे. कृपया पुन्हा सुरू करा."),
     ("planning_limit", "मला योजना बनवता आली नाही. कृपया पुन्हा प्रयत्न करा."),
     ("execution_error", "काहीतरी चूक झाली. कृपया पुन्हा प्रयत्न करा."),
     ("unexpected_error", "अनपेक्षित त्रुटी. कृपया पुन्हा प्रयत्न करा.")]
  | "tamil" =>
    [("invalid_session", "அமர்வு தவறானது. தயவுசெய்து மீண்டும் தொடங்குங்கள்."),
     ("planning_limit", "திட்டமிட முடியவில்லை. தயவுசெய்து மீண்டும் முயற்சிக்கவும்."),
     ("execution_error", "ஏதோ தவறு ஏற்பட்டது. தயவுசெய்து மீண்டும் முயற்சிக்கவும்."),
     ("unexpected_error", "எதிர்பாராத பிழை. தயவுசெய்து மீண்டும் முயற்சிக்கவும்.")]
  | _ =>
    [("invalid_session", "सत्र अमान्य है। कृपया फिर से शुरू करें।"),
     ("planning_limit", "योजना नहीं बन पाई। कृपया पुनः प्रयास करें।"),
     ("execution_error", "कुछ गलत हुआ। कृपया पुनः प्रयास करें।"),
     ("unexpected_error", "अप्रत्याशित त्रुटि। कृपया पुनः प्रयास करें।")]

/-- String-table lookup (Python `dict.get`). -/
def msgGet : List (String × String) → String → Option String
  | [], _ => none
  | (k', v) :: rest, k => if k' = k then some v else msgGet rest k

/-- `VoiceAgent._get_error_message`: unknown languages fall back to the
Hindi table, unknown error types to `unexpected_error` (always present). -/
def get_error_message (language : String) (error_type : String) : String :=
  let msgs := error_messages language
  match msgGet msgs error_type with
  | some m => m
  | none => (msgGet msgs "unexpected_error").getD ""

/-- The response dictionary returned by `VoiceAgent._handle_error`. -/
structure ErrorResponse where
  text : String
  type : String
  error_type : String
  error_message : String
  requires_input : Bool

/-- `VoiceAgent._handle_error`: the shared handler every `except` arm of
`process_input` delegates to.  It transitions to ERROR_RECOVERY, builds the
localized message (appending the raw diagnostic in debug mode), transitions
to IDLE, and returns the response dictionary.  A transition failure — an
`InvalidStateTransitionError` — propagates, which in Python escapes
`process_input` (the `except` blocks are already being handled). -/
def handle_error (debug : Bool) (language : String) (sm : StateMachine)
    (error_type error_message : String) :
    StateMachine × Except InvalidStateTransitionError ErrorResponse :=
  let s1 := transition sm .error_recovery ("error_" ++ error_type)
  match s1.2 with
  | .error e => (s1.1, .error e)
  | .ok _ =>
    let error_response := get_error_message language error_type
    let error_response :=
      if debug ∧ error_message ≠ "" then error_response ++ " (debug: " ++ error_message ++ ")"
      else error_response
    let s2 := transition s1.1 .idle "error_handled"
    match s2.2 with
    | .error e => (s2.1, .error e)
    | .ok _ =>
      (s2.1, .ok { text := error_response, type := "error", error_type := error_type,
                   error_message := error_message, requires_input := true })

/-! ### Concrete fixtures used by witnesses and counterexamples -/

/-- A tool environment with no registered tools. -/
def envNoTools : ExecEnv := { registered := fun _ => false, run := fun _ _ => .ok .null }

/-- A task with no tool name — a "reasoning step". -/
def taskReasoning : Task := { id := "task_1", description := "think" }

/-- A one-task plan whose task has no tool name. -/
def planReasoningOnly : Plan := { id := "plan_r", goal := "g", tasks := [taskReasoning] }

/-- A task naming a tool that is absent from the registry. -/
def taskMissingTool : Task :=
  { id := "task_1", description := "d", tool_name := some "nonexistent_tool" }

/-- A one-task plan naming a tool absent from the registry. -/
def planMissingTool : Plan := { id := "plan_m", goal := "g", tasks := [taskMissingTool] }

/-- A task depending on an id that no task of its plan carries. -/
def taskUnmetDep : Task := { id := "task_1", description := "d", dependencies := ["ghost"] }

/-- A two-task plan whose first task has an unmet dependency. -/
def planUnmetDep : Plan :=
  { id := "plan_b", goal := "g",
    tasks := [taskUnmetDep, { id := "task_2", description := "d2" }] }

/-! ### Helper lemmas: lists, plans, loop step equations -/

theorem modifyAt_length {α : Type} (f : α → α) (n : Nat) (l : List α) :
    (modifyAt f n l).length = l.length := by
  induction l generalizing n with
  | nil => cases n <;> rfl
  | cons a l ih =>
    cases n with
    | zero => rfl
    | succ m => simp [modifyAt, ih]

theorem getElem?_modifyAt_ne {α : Type} (f : α → α) {n j : Nat} (l : List α) (h : j ≠ n) :
    (modifyAt f n l)[j]? = l[j]? := by
  induction l generalizing n j with
  | nil => cases n <;> rfl
  | cons a l ih =>
    cases n with
    | zero =>
      cases j with
      | zero => exact absurd rfl h
      | succ i => simp [modifyAt]
    | succ m =>
      cases j with
      | zero => simp [modifyAt]
      | succ i =>
        simp only [modifyAt, List.getElem?_cons_succ]
        exact ih (by omega)

theorem getElem?_modifyAt_self {α : Type} (f : α → α) (n : Nat) (l : List α) :
    (modifyAt f n l)[n]? = (l[n]?).map f := by
  induction l generalizing n with
  | nil => cases n <;> rfl
  | cons a l ih =>
    cases n with
    | zero => simp [modifyAt]
    | succ m => simpa [modifyAt] using ih (n := m)

theorem advance_tasks (p : Plan) : p.advance.tasks = p.tasks := by
  unfold Plan.advance
  dsimp only
  split <;> rfl

theorem advance_index (p : Plan) : p.advance.current_task_index = p.current_task_index + 1 := by
  unfold Plan.advance
  dsimp only
  split <;> rfl

theorem updateCurrent_index (p : Plan) (f : Task → Task) :
    (updateCurrent p f).current_task_index = p.current_task_index := rfl

theorem updateCurrent_tasks (p : Plan) (f : Task → Task) :
    (updateCurrent p f).tasks = modifyAt f p.current_task_index p.tasks := rfl

theorem getCurrentTask_eq {p : Plan} {t : Task} (h : p.getCurrentTask = some t) :
    p.current_task_index < p.tasks.length ∧ p.tasks[p.current_task_index]? = some t := by
  unfold Plan.getCurrentTask at h
  split at h
  · exact ⟨‹_›, h⟩
  · cases h

theorem execPlanLoop_complete (env : ExecEnv) (n : Nat) (plan : Plan) (res : ExecResults)
    (h : plan.is_complete = true) :
    execPlanLoop env (n + 1) plan res = (plan, res) := by
  simp [execPlanLoop, h]

theorem execPlanLoop_noTask (env : ExecEnv) (n : Nat) (plan : Plan) (res : ExecResults)
    (h1 : plan.is_complete = false) (h2 : plan.getCurrentTask = none) :
    execPlanLoop env (n + 1) plan res = (plan, res) := by
  simp [execPlanLoop, h1, h2]

theorem execPlanLoop_blocked (env : ExecEnv) (n : Nat) (plan : Plan) (res : ExecResults)
    {t : Task} (h1 : plan.is_complete = false) (h2 : plan.getCurrentTask = some t)
    (h3 : check_dependencies t plan = false) :
    execPlanLoop env (n + 1) plan res =
      execPlanLoop env n
        (updateCurrent plan (fun x => { x with status := .blocked })).advance
        { res with task_results := res.task_results ++ [blockedEntry t] } := by
  simp [execPlanLoop, h1, h2, h3]

theorem execPlanLoop_ok (env : ExecEnv) (n : Nat) (plan : Plan) (res : ExecResults)
    {t : Task} {r : PyVal} (h1 : plan.is_complete = false)
    (h2 : plan.getCurrentTask = some t) (h3 : check_dependencies t plan = true)
    (h4 : execute_task env plan.current_task_index t = .ok r) :
    execPlanLoop env (n + 1) plan res =
      execPlanLoop env n
        (updateCurrent (updateCurrent plan (fun x => { x with status := .in_progress }))
          (fun x => { x with status := .completed, result := some r })).advance
        { res with tasks_completed := res.tasks_completed + 1,
                   task_results := res.task_results ++
                     [{ task_id := t.id, status := "success", result := some r }] } := by
  simp [execPlanLoop, h1, h2, h3, h4, updateCurrent_index]

theorem execPlanLoop_err_rec (env : ExecEnv) (n : Nat) (plan : Plan) (res : ExecResults)
    {t : Task} {e : ExecError} (h1 : plan.is_complete = false)
    (h2 : plan.getCurrentTask = some t) (h3 : check_dependencies t plan = true)
    (h4 : execute_task env plan.current_task_index t = .error e)
    (h5 : e.recoverable = true) :
    execPlanLoop env (n + 1) plan res =
      execPlanLoop env n
        (updateCurrent (updateCurrent plan (fun x => { x with status := .in_progress }))
          (fun x => { x with status := .failed, error := some e.msg })).advance
        { res with tasks_failed := res.tasks_failed + 1,
                   task_results := res.task_results ++
                     [{ task_id := t.id, status := "failed", error := some e.msg,
                        recoverable := some e.recoverable }] } := by
  simp [execPlanLoop, h1, h2, h3, h4, h5, updateCurrent_index]

theorem execPlanLoop_err_fatal (env : ExecEnv) (n : Nat) (plan : Plan) (res : ExecResults)
    {t : Task} {e : ExecError} (h1 : plan.is_complete = false)
    (h2 : plan.getCurrentTask = some t) (h3 : check_dependencies t plan = true)
    (h4 : execute_task env plan.current_task_index t = .error e)
    (h5 : e.recoverable = false) :
    execPlanLoop env (n + 1) plan res =
      (updateCurrent (updateCurrent plan (fun x => { x with status := .in_progress }))
          (fun x => { x with status := .failed, error := some e.msg }),
       { res with tasks_failed := res.tasks_failed + 1,
                  task_results := res.task_results ++
                    [{ task_id := t.id, status := "failed", error := some e.msg,
                       recoverable := some e.recoverable }],
                  final_status := "failed" }) := by
  simp [execPlanLoop, h1, h2, h3, h4, h5, updateCurrent_index]

theorem hasFatal_append (l : List ResultEntry) (e : ResultEntry) :
    hasFatal (l ++ [e]) = (hasFatal l || isFatalEntry e) := by
  simp [hasFatal, List.any_append]

theorem isFatalEntry_blocked (t : Task) : isFatalEntry (blockedEntry t) = false := rfl

theorem isFatalEntry_success (tid : String) (r : PyVal) :
    isFatalEntry { task_id := tid, status := "success", result := some r } = false := rfl

theorem isFatalEntry_failed (tid m : String) (b : Bool) :
    isFatalEntry { task_id := tid, status := "failed", error := some m,
                   recoverable := some b } = !b := by
  cases b <;> rfl

/-- `_check_dependencies` returns False exactly when some declared dependency
id is absent from the plan or not COMPLETED. -/
theorem check_dependencies_eq_false {t : Task} {p : Plan} :
    check_dependencies t p = false ↔ ∃ d ∈ t.dependencies, depMet p d = false := by
  constructor
  · intro h
    by_contra hc
    push_neg at hc
    have : check_dependencies t p = true := by
      unfold check_dependencies
      rw [List.all_eq_true]
      intro d hd
      have := hc d hd
      cases hmet : depMet p d with
      | false => exact absurd hmet this
      | true => rfl
    rw [this] at h
    cases h
  · rintro ⟨d, hd, hmet⟩
    cases hall : check_dependencies t p with
    | false => rfl
    | true =>
      unfold check_dependencies at hall
      rw [List.all_eq_true] at hall
      have := hall d hd
      rw [hmet] at this
      cases this

/-- Tasks strictly before the current index are never modified by the rest
of the run. -/
theorem execPlanLoop_untouched (env : ExecEnv) :
    ∀ (fuel : Nat) (plan : Plan) (res : ExecResults) (j : Nat),
      j < plan.current_task_index →
      (execPlanLoop env fuel plan res).1.tasks[j]? = plan.tasks[j]? := by
  intro fuel
  induction fuel with
  | zero => intro plan res j _; rfl
  | succ n ih =>
    intro plan res j hj
    by_cases hc : plan.is_complete
    · rw [execPlanLoop_complete env n plan res hc]
    · rw [Bool.not_eq_true] at hc
      cases hcur : plan.getCurrentTask with
      | none => rw [execPlanLoop_noTask env n plan res hc hcur]
      | some t =>
        have hidx := getCurrentTask_eq hcur
        by_cases hdep : check_dependencies t plan
        · cases hrun : execute_task env plan.current_task_index t with
          | ok r =>
            rw [execPlanLoop_ok env n plan res hc hcur hdep hrun]
            rw [ih _ _ j (by simp [advance_index, updateCurrent_index]; omega)]
            simp only [advance_tasks, updateCurrent_tasks, updateCurrent_index]
            rw [getElem?_modifyAt_ne _ _ (by omega), getElem?_modifyAt_ne _ _ (by omega)]
          | error e =>
            cases hrec : e.recoverable with
            | true =>
              rw [execPlanLoop_err_rec env n plan res hc hcur hdep hrun hrec]
              rw [ih _ _ j (by simp [advance_index, updateCurrent_index]; omega)]
              simp only [advance_tasks, updateCurrent_tasks, updateCurrent_index]
              rw [getElem?_modifyAt_ne _ _ (by omega), getElem?_modifyAt_ne _ _ (by omega)]
            | false =>
              rw [execPlanLoop_err_fatal env n plan res hc hcur hdep hrun hrec]
              dsimp only
              simp only [updateCurrent_tasks, updateCurrent_index]
              rw [getElem?_modifyAt_ne _ _ (by omega), getElem?_modifyAt_ne _ _ (by omega)]
        · rw [Bool.not_eq_true] at hdep
          rw [execPlanLoop_blocked env n plan res hc hcur hdep]
          rw [ih _ _ j (by simp [advance_index, updateCurrent_index]; omega)]
          simp only [advance_tasks, updateCurrent_tasks, updateCurrent_index]
          rw [getElem?_modifyAt_ne _ _ (by omega)]

/-- The two task counters grow by at most the number of tasks left at or
after the current index. -/
theorem execPlanLoop_count (env : ExecEnv) :
    ∀ (fuel : Nat) (plan : Plan) (res : ExecResults),
      (execPlanLoop env fuel plan res).2.tasks_completed
        + (execPlanLoop env fuel plan res).2.tasks_failed
      ≤ res.tasks_completed + res.tasks_failed
        + (plan.tasks.length - plan.current_task_index) := by
  intro fuel
  induction fuel with
  | zero => intro plan res; exact Nat.le_add_right _ _
  | succ n ih =>
    intro plan res
    by_cases hc : plan.is_complete
    · rw [execPlanLoop_complete env n plan res hc]
      exact Nat.le_add_right _ _
    · rw [Bool.not_eq_true] at hc
      cases hcur : plan.getCurrentTask with
      | none =>
        rw [execPlanLoop_noTask env n plan res hc hcur]
        exact Nat.le_add_right _ _
      | some t =>
        have hidx := (getCurrentTask_eq hcur).1
        by_cases hdep : check_dependencies t plan
        · cases hrun : execute_task env plan.current_task_index t with
          | ok r =>
            rw [execPlanLoop_ok env n plan res hc hcur hdep hrun]
            refine le_trans (ih _ _) ?_
            simp only [advance_index, advance_tasks, updateCurrent_index,
              updateCurrent_tasks, modifyAt_length]
            omega
          | error e =>
            cases hrec : e.recoverable with
            | true =>
              rw [execPlanLoop_err_rec env n plan res hc hcur hdep hrun hrec]
              refine le_trans (ih _ _) ?_
              simp only [advance_index, advance_tasks, updateCurrent_index,
                updateCurrent_tasks, modifyAt_length]
              omega
            | false =>
              rw [execPlanLoop_err_fatal env n plan res hc hcur hdep hrun hrec]
              dsimp only
              omega
        · rw [Bool.not_eq_true] at hdep
          rw [execPlanLoop_blocked env n plan res hc hcur hdep]
          refine le_trans (ih _ _) ?_
          simp only [advance_index, advance_tasks, updateCurrent_index,
            updateCurrent_tasks, modifyAt_length]
          omega

/-- Starting from a `"success"` status and no fatal entry, the loop ends
either still `"success"` with no fatal entry, or `"failed"` with a fatal
entry recorded. -/
theorem execPlanLoop_status (env : ExecEnv) :
    ∀ (fuel : Nat) (plan : Plan) (res : ExecResults),
      res.final_status = "success" → hasFatal res.task_results = false →
      ((execPlanLoop env fuel plan res).2.final_status = "success"
        ∧ hasFatal (execPlanLoop env fuel plan res).2.task_results = false)
      ∨ ((execPlanLoop env fuel plan res).2.final_status = "failed"
        ∧ hasFatal (execPlanLoop env fuel plan res).2.task_results = true) := by
  intro fuel
  induction fuel with
  | zero => intro plan res hs hf; exact Or.inl ⟨hs, hf⟩
  | succ n ih =>
    intro plan res hs hf
    by_cases hc : plan.is_complete
    · rw [execPlanLoop_complete env n plan res hc]; exact Or.inl ⟨hs, hf⟩
    · rw [Bool.not_eq_true] at hc
      cases hcur : plan.getCurrentTask with
      | none => rw [execPlanLoop_noTask env n plan res hc hcur]; exact Or.inl ⟨hs, hf⟩
      | some t =>
        by_cases hdep : check_dependencies t plan
        · cases hrun : execute_task env plan.current_task_index t with
          | ok r =>
            rw [execPlanLoop_ok env n plan res hc hcur hdep hrun]
            exact ih _ _ hs (by rw [hasFatal_append, hf, isFatalEntry_success]; rfl)
          | error e =>
            cases hrec : e.recoverable with
            | true =>
              rw [execPlanLoop_err_rec env n plan res hc hcur hdep hrun hrec]
              refine ih _ _ hs ?_
              rw [hasFatal_append, hf, hrec, isFatalEntry_failed]
              rfl
            | false =>
              rw [execPlanLoop_err_fatal env n plan res hc hcur hdep hrun hrec]
              refine Or.inr ⟨rfl, ?_⟩
              dsimp only
              rw [hrec, hasFatal_append, hf, isFatalEntry_failed]
              rfl
        · rw [Bool.not_eq_true] at hdep
          rw [execPlanLoop_blocked env n plan res hc hcur hdep]
          exact ih _ _ hs (by rw [hasFatal_append, hf, isFatalEntry_blocked]; rfl)

theorem profGet_profSet_self {V : Type} (p : Profile V) (k : String) (e : ProfileEntry V) :
    profGet (profSet p k e) k = some e := by
  induction p with
  | nil => simp [profSet, profGet]
  | cons hd tl ih =>
    obtain ⟨k', e'⟩ := hd
    by_cases h : k' = k
    · simp [profSet, profGet, h]
    · simp [profSet, profGet, h, ih]

theorem assocGet_assocSet_self (fs : List (String × PyVal)) (k : String) (v : PyVal) :
    assocGet (assocSet fs k v) k = some v := by
  induction fs with
  | nil => simp [assocSet, assocGet]
  | cons hd tl ih =>
    obtain ⟨k', v'⟩ := hd
    by_cases h : k' = k
    · simp [assocSet, assocGet, h]
    · simp [assocSet, assocGet, h, ih]

/-- `replan` always returns the passed-in plan with its `revision_count`
incremented in place, on every path including the raising ones. -/
theorem replan_fst (max_planning_iterations : Nat) (resp : ParseOutcome) (new_id : String)
    (original_plan : Plan) :
    (replan max_planning_iterations resp new_id original_plan).1 =
      { original_plan with revision_count := original_plan.revision_count + 1 } := by
  unfold replan
  dsimp only
  split
  · rfl
  · split
    · rfl
    · split
      · split
        · rfl
        · rfl
      · rfl

/-- Once the incremented count exceeds the ceiling, `replan` raises
`PlanningLimitExceeded`. -/
theorem replan_limit {max_planning_iterations : Nat} {resp : ParseOutcome} {new_id : String}
    {original_plan : Plan}
    (h : original_plan.revision_count + 1 > max_planning_iterations) :
    (replan max_planning_iterations resp new_id original_plan).2 =
      .error .planningLimitExceeded := by
  unfold replan
  dsimp only
  rw [if_pos h]

/-- Every plan `replan` returns carries the incremented revision count,
which never exceeds the ceiling. -/
theorem replan_ok {max_planning_iterations : Nat} {resp : ParseOutcome} {new_id : String}
    {original_plan : Plan} {p : Plan}
    (h : (replan max_planning_iterations resp new_id original_plan).2 = .ok p) :
    p.revision_count = original_plan.revision_count + 1
    ∧ p.revision_count ≤ max_planning_iterations := by
  unfold replan at h
  dsimp only at h
  by_cases hlim : original_plan.revision_count + 1 > max_planning_iterations
  · rw [if_pos hlim] at h
    cases h
  · rw [if_neg hlim] at h
    cases hp : parse_plan_response resp with
    | error e => rw [hp] at h; cases h
    | ok plan_data =>
      rw [hp] at h
      cases plan_data with
      | obj fields0 =>
        dsimp only at h
        split at h
        · cases h
        · simp only [Except.ok.injEq] at h
          subst h
          refine ⟨rfl, ?_⟩
          show original_plan.revision_count + 1 ≤ max_planning_iterations
          omega
      | null => cases h
      | bool b => cases h
      | num n => cases h
      | str s => cases h
      | arr l => cases h

/-- A same-state transition is an idempotent no-op. -/
theorem transition_same {sm : StateMachine} {to_state : AgentState} {trigger : String}
    (he : to_state = sm.current_state) :
    transition sm to_state trigger = (sm, .ok true) := by
  unfold transition
  rw [if_pos he]

/-- A transition allowed by `VALID_TRANSITIONS` updates the state and
appends one history record. -/
theorem transition_valid {sm : StateMachine} {to_state : AgentState} {trigger : String}
    (hne : to_state ≠ sm.current_state)
    (hv : (VALID_TRANSITIONS sm.current_state).contains to_state = true) :
    transition sm to_state trigger =
      ({ current_state := to_state,
         transition_history := sm.transition_history ++
           [{ from_state := sm.current_state, to_state := to_state, trigger := trigger }] },
       .ok true) := by
  have hcan : can_transition sm to_state = true := by
    unfold can_transition
    rw [if_neg hne]
    exact hv
  unfold transition
  rw [if_neg hne, if_neg (by rw [hcan]; simp)]

/-! ### The claims -/

/-- C2 (confirmed): `AgentContext.update_profile(k, v)` stores
`contradiction_detected=true` with the old value in `previous_value` exactly
when an entry for `k` exists with a different stored value; writing an equal
value or a fresh key stores an entry without the flag (and without
`previous_value`), and the method returns the flag. -/
theorem update_profile_contradiction (V : Type) [DecidableEq V] (p : Profile V)
    (k : String) (v : V) (src : String) :
    ((update_profile p k v src).2 = true ↔ ∃ e, profGet p k = some e ∧ e.value ≠ v)
    ∧ (∀ e, profGet p k = some e → e.value ≠ v →
        profGet (update_profile p k v src).1 k =
          some { value := v, source := src, previous_value := some e.value,
                 contradiction_detected := true })
    ∧ (∀ e, profGet p k = some e → e.value = v →
        profGet (update_profile p k v src).1 k = some { value := v, source := src })
    ∧ (profGet p k = none →
        profGet (update_profile p k v src).1 k = some { value := v, source := src }) := by
  unfold update_profile
  cases hget : profGet p k with
  | none =>
    dsimp only
    refine ⟨by simp, ?_, ?_, ?_⟩
    · intro e he _; cases he
    · intro e he _; cases he
    · intro _; exact profGet_profSet_self p k _
  | some existing =>
    dsimp only
    by_cases hv : existing.value = v
    · rw [if_neg (not_not_intro hv)]
      refine ⟨?_, ?_, ?_, ?_⟩
      · simp only [Bool.false_eq_true, false_iff]
        rintro ⟨e, he, hne⟩
        cases he
        exact hne hv
      · intro e he hne
        cases he
        exact absurd hv hne
      · intro e he _
        exact profGet_profSet_self p k _
      · intro h; cases h
    · rw [if_pos hv]
      refine ⟨?_, ?_, ?_, ?_⟩
      · exact ⟨fun _ => ⟨existing, rfl, hv⟩, fun _ => rfl⟩
      · intro e he _
        cases he
        exact profGet_profSet_self p k _
      · intro e he hev
        cases he
        exact absurd hev hv
      · intro h; cases h

/-- C2 witness: updating `age` from 25 to 30 flags the contradiction and
keeps 25 in `previous_value`. -/
theorem update_profile_contradiction_witness :
    profGet (update_profile ([("age", { value := 25, source := "user" })] : Profile Nat)
        "age" 30 "extracted").1 "age" =
      some { value := 30, source := "extracted", previous_value := some 25,
             contradiction_detected := true } :=
  (update_profile_contradiction Nat [("age", { value := 25, source := "user" })]
    "age" 30 "extracted").2.1 { value := 25, source := "user" } rfl (by decide)

/-- C9 (confirmed): a same-value re-assertion on an entry whose
`contradiction_detected` flag is set silently replaces the entry by one
without the flag and without `previous_value`, with the caller-supplied
source (the default `"user"`), not `"user_confirmed"`; `update_profile`
returns False, and the entry differs from what
`ContradictionResolver.resolve_contradiction` would have produced (source
`"user_confirmed"`, `resolved=True`). -/
theorem same_value_clears_contradiction (V : Type) [DecidableEq V] (p : Profile V)
    (k : String) (v : V) (e : ProfileEntry V)
    (h1 : profGet p k = some e) (_h2 : e.contradiction_detected = true)
    (h3 : e.value = v) :
    profGet (update_profile p k v "user").1 k = some { value := v, source := "user" }
    ∧ (update_profile p k v "user").2 = false
    ∧ profGet (resolve_contradiction p k v).1 k =
        some { value := v, source := "user_confirmed", resolved := true } := by
  refine ⟨?_, ?_, ?_⟩
  · unfold update_profile
    rw [h1]
    dsimp only
    rw [if_neg (not_not_intro h3)]
    exact profGet_profSet_self p k _
  · unfold update_profile
    rw [h1]
    dsimp only
    rw [if_neg (not_not_intro h3)]
  · unfold resolve_contradiction
    rw [h1]
    dsimp only
    exact profGet_profSet_self p k _

/-- C9 witness: a pending contradiction on `age` (30, previously 25) is
silently cleared by re-asserting 30. -/
theorem same_value_clears_contradiction_witness :
    profGet (update_profile
        ([("age", { value := 30, source := "extracted", previous_value := some 25,
                    contradiction_detected := true })] : Profile Nat) "age" 30 "user").1 "age" =
      some { value := 30, source := "user" }
    ∧ (update_profile
        ([("age", { value := 30, source := "extracted", previous_value := some 25,
                    contradiction_detected := true })] : Profile Nat) "age" 30 "user").2 = false
    ∧ profGet (resolve_contradiction
        ([("age", { value := 30, source := "extracted", previous_value := some 25,
                    contradiction_detected := true })] : Profile Nat) "age" 30).1 "age" =
      some { value := 30, source := "user_confirmed", resolved := true } :=
  same_value_clears_contradiction Nat _ "age" 30
    { value := 30, source := "extracted", previous_value := some 25,
      contradiction_detected := true } rfl rfl rfl

/-- C8 (confirmed): for a target state that is neither the current state nor
in its allowed-transition list, `StateMachine.transition` raises an
`InvalidStateTransitionError` identifying source and target, and the machine
— current state and history — is returned unchanged (the raise happens
before any mutation). -/
theorem transition_invalid (sm : StateMachine) (to_state : AgentState) (trigger : String)
    (hne : to_state ≠ sm.current_state)
    (hnv : (VALID_TRANSITIONS sm.current_state).contains to_state = false) :
    transition sm to_state trigger =
      (sm, .error { from_state := sm.current_state, to_state := to_state }) := by
  unfold transition
  rw [if_neg hne]
  rw [if_pos]
  unfold can_transition
  rw [if_neg hne, hnv]
  simp

/-- C8 witness: EXECUTING is not reachable from IDLE. -/
theorem transition_invalid_witness :
    transition { current_state := .idle } .executing "go" =
      ({ current_state := .idle },
       .error { from_state := .idle, to_state := .executing }) :=
  transition_invalid { current_state := .idle } .executing "go" (by decide) (by decide)

/-- C5 (confirmed): every Plan `replan` returns carries
`revision_count = original.revision_count + 1` and never exceeds the
configured ceiling; and as soon as the carried-forward count would exceed
the ceiling, `replan` raises `PlanningLimitExceeded` (for any oracle
behaviour). -/
theorem replan_bounded (max_planning_iterations : Nat) (resp : ParseOutcome)
    (new_id : String) (original_plan : Plan) :
    (∀ p, (replan max_planning_iterations resp new_id original_plan).2 = .ok p →
        p.revision_count = original_plan.revision_count + 1
        ∧ p.revision_count ≤ max_planning_iterations)
    ∧ (original_plan.revision_count + 1 > max_planning_iterations →
        (replan max_planning_iterations resp new_id original_plan).2 =
          .error .planningLimitExceeded) := by
  constructor
  · intro p hp
    have h := replan_ok hp
    exact ⟨h.1, by omega⟩
  · intro h
    exact replan_limit h

/-- C5 witness: at the default ceiling 5, a plan at revision 5 raises and a
plan at revision 2 returns revision 3 ≤ 5. -/
theorem replan_bounded_witness :
    ((replan 5 .invalidNoBrace "plan_a" { id := "p", goal := "g", revision_count := 5 }).2 =
      .error .planningLimitExceeded)
    ∧ (∀ p, (replan 5 .invalidNoBrace "plan_b"
          { id := "p", goal := "g", revision_count := 2 }).2 = .ok p →
        p.revision_count = 3 ∧ p.revision_count ≤ 5) :=
  ⟨(replan_bounded 5 .invalidNoBrace "plan_a"
      { id := "p", goal := "g", revision_count := 5 }).2 (by decide),
   fun p hp => (replan_bounded 5 .invalidNoBrace "plan_b"
      { id := "p", goal := "g", revision_count := 2 }).1 p hp⟩

/-- C10 (confirmed): `replan` increments `original_plan.revision_count`
before the ceiling check, so the passed-in plan comes back incremented on
every path — in particular it has been mutated even when
`PlanningLimitExceeded` is raised. -/
theorem replan_mutates_original (max_planning_iterations : Nat) (resp : ParseOutcome)
    (new_id : String) (original_plan : Plan) :
    ((replan max_planning_iterations resp new_id original_plan).1.revision_count =
        original_plan.revision_count + 1)
    ∧ (original_plan.revision_count + 1 > max_planning_iterations →
        (replan max_planning_iterations resp new_id original_plan).2 =
            .error .planningLimitExceeded
        ∧ (replan max_planning_iterations resp new_id original_plan).1.revision_count =
            original_plan.revision_count + 1) := by
  have hf := replan_fst max_planning_iterations resp new_id original_plan
  constructor
  · rw [hf]
  · intro h
    exact ⟨replan_limit h, by rw [hf]⟩

/-- C1 counterexample: a plan containing a task whose tool name is missing
(`tool_name = None`) is not treated as a failure at all — `execute_task`
returns a "reasoning step" success, the task completes, and `final_status`
is `"success"`, not `"failed"`.  (Only a tool name naming an unregistered
tool is fatal; see the amended theorem.) -/
theorem missing_tool_name_succeeds :
    planReasoningOnly.tasks.map Task.tool_name = [none]
    ∧ (execute_plan envNoTools planReasoningOnly).2.final_status = "success"
    ∧ (execute_plan envNoTools planReasoningOnly).2.tasks_completed = 1
    ∧ (execute_plan envNoTools planReasoningOnly).2.tasks_failed = 0 :=
  ⟨rfl, rfl, rfl, rfl⟩

/-- C1 (amended): when the task reached by `execute_plan` (dependencies
met) carries a tool name that is absent from the registry (and non-empty —
an empty name is Python-falsy and is treated as a tool-less reasoning
step), the task fails with a non-recoverable `ExecutionError`: it is marked
FAILED, `final_status` becomes `"failed"`, exactly this one failure entry is
appended, and the loop halts at that task (`current_task_index` does not
advance). -/
theorem missing_from_registry_fatal (env : ExecEnv) (fuel : Nat) (plan : Plan)
    (res : ExecResults) (t : Task) (name : String)
    (h1 : plan.is_complete = false)
    (h2 : plan.getCurrentTask = some t)
    (h3 : check_dependencies t plan = true)
    (h4 : t.tool_name = some name)
    (h5 : name ≠ "")
    (h6 : env.registered name = false) :
    (execPlanLoop env (fuel + 1) plan res).2.final_status = "failed"
    ∧ (execPlanLoop env (fuel + 1) plan res).2.tasks_failed = res.tasks_failed + 1
    ∧ (execPlanLoop env (fuel + 1) plan res).2.task_results =
        res.task_results ++
          [{ task_id := t.id, status := "failed",
             error := some ("Tool not found: " ++ name), recoverable := some false }]
    ∧ (execPlanLoop env (fuel + 1) plan res).1.current_task_index = plan.current_task_index
    ∧ (execPlanLoop env (fuel + 1) plan res).1.tasks[plan.current_task_index]? =
        some { t with status := .failed, error := some ("Tool not found: " ++ name) } := by
  have hexec : execute_task env plan.current_task_index t =
      .error { msg := "Tool not found: " ++ name, task_id := t.id, recoverable := false } := by
    unfold execute_task
    dsimp only
    rw [h4]
    dsimp only
    rw [if_neg h5, h6]
    simp
  rw [execPlanLoop_err_fatal env fuel plan res h1 h2 h3 hexec rfl]
  refine ⟨rfl, rfl, rfl, rfl, ?_⟩
  dsimp only
  simp only [updateCurrent_tasks, updateCurrent_index]
  rw [getElem?_modifyAt_self, getElem?_modifyAt_self, (getCurrentTask_eq h2).2]
  rfl

/-- C1 amended witness: a single-task plan naming an unregistered tool
halts immediately with `final_status = "failed"`. -/
theorem missing_from_registry_fatal_witness :
    (planMissingTool.is_complete = false
     ∧ planMissingTool.getCurrentTask = some taskMissingTool
     ∧ check_dependencies taskMissingTool planMissingTool = true
     ∧ "nonexistent_tool" ≠ ""
     ∧ envNoTools.registered "nonexistent_tool" = false)
    ∧ ((execPlanLoop envNoTools 1 planMissingTool (initResults planMissingTool)).2.final_status
          = "failed"
       ∧ (execPlanLoop envNoTools 1 planMissingTool (initResults planMissingTool)).1.current_task_index
          = 0) :=
  ⟨⟨rfl, rfl, rfl, by decide, rfl⟩,
   ⟨(missing_from_registry_fatal envNoTools 0 planMissingTool (initResults planMissingTool)
       taskMissingTool "nonexistent_tool" rfl rfl rfl rfl (by decide) rfl).1,
    (missing_from_registry_fatal envNoTools 0 planMissingTool (initResults planMissingTool)
       taskMissingTool "nonexistent_tool" rfl rfl rfl rfl (by decide) rfl).2.2.2.1⟩⟩

/-- C3 (confirmed): for every tool behaviour and every plan,
`execute_plan` returns `tasks_completed + tasks_failed ≤ len(tasks)`;
`final_status = "failed"` iff a non-recoverable `ExecutionError` was
recorded; and otherwise `partial_success` iff some (necessarily
recoverable) failure occurred, `success` iff none did. -/
theorem execute_plan_counts_and_status (env : ExecEnv) (plan : Plan) :
    ((execute_plan env plan).2.tasks_completed + (execute_plan env plan).2.tasks_failed
        ≤ plan.tasks.length)
    ∧ ((execute_plan env plan).2.final_status = "failed"
        ↔ hasFatal (execute_plan env plan).2.task_results = true)
    ∧ (hasFatal (execute_plan env plan).2.task_results = false →
        (((execute_plan env plan).2.final_status = "partial_success"
           ↔ 0 < (execute_plan env plan).2.tasks_failed)
         ∧ ((execute_plan env plan).2.final_status = "success"
           ↔ (execute_plan env plan).2.tasks_failed = 0))) := by
  have hcount := execPlanLoop_count env (plan.tasks.length + 1) plan (initResults plan)
  have hstat := execPlanLoop_status env (plan.tasks.length + 1) plan (initResults plan) rfl rfl
  unfold execute_plan
  dsimp only
  set L := execPlanLoop env (plan.tasks.length + 1) plan (initResults plan) with hL
  have hbound : L.2.tasks_completed + L.2.tasks_failed ≤ plan.tasks.length := by
    have hz1 : (initResults plan).tasks_completed = 0 := rfl
    have hz2 : (initResults plan).tasks_failed = 0 := rfl
    omega
  rcases hstat with ⟨hs, hf⟩ | ⟨hs, hf⟩
  · by_cases hadj : 0 < L.2.tasks_failed ∧ L.2.final_status ≠ "failed"
    · rw [if_pos hadj]
      refine ⟨hbound, ?_, ?_⟩
      · constructor
        · intro hx
          have hx' : ("partial_success" : String) = "failed" := hx
          exact absurd hx' (by decide)
        · intro hx
          have hx' : hasFatal L.2.task_results = true := hx
          rw [hf] at hx'
          cases hx'
      · intro _
        refine ⟨⟨fun _ => hadj.1, fun _ => rfl⟩, ?_, ?_⟩
        · intro hx
          have hx' : ("partial_success" : String) = "success" := hx
          exact absurd hx' (by decide)
        · intro hx
          have hx' : L.2.tasks_failed = 0 := hx
          have hpos := hadj.1
          omega
    · rw [if_neg hadj]
      have hf0 : L.2.tasks_failed = 0 := by
        by_contra hne
        exact hadj ⟨Nat.pos_of_ne_zero hne, by rw [hs]; decide⟩
      refine ⟨hbound, ?_, ?_⟩
      · rw [hs, hf]
        decide
      · intro _
        rw [hs, hf0]
        exact ⟨by decide, by decide⟩
  · rw [if_neg (fun hx => hx.2 hs)]
    refine ⟨hbound, ?_, ?_⟩
    · rw [hs, hf]
      decide
    · intro hF
      rw [hf] at hF
      cases hF

/-- C3 witness: on a plan with one tool-less task and no registered tools,
no fatal error is recorded and the status classification holds. -/
theorem execute_plan_counts_and_status_witness :
    hasFatal (execute_plan envNoTools planReasoningOnly).2.task_results = false
    ∧ (((execute_plan envNoTools planReasoningOnly).2.final_status = "partial_success"
         ↔ 0 < (execute_plan envNoTools planReasoningOnly).2.tasks_failed)
       ∧ ((execute_plan envNoTools planReasoningOnly).2.final_status = "success"
         ↔ (execute_plan envNoTools planReasoningOnly).2.tasks_failed = 0)) :=
  ⟨rfl, (execute_plan_counts_and_status envNoTools planReasoningOnly).2.2 rfl⟩

/-- C4 (confirmed): a task reached by the executor whose dependency list
names an id that is absent from the plan or not COMPLETED at that moment is
marked BLOCKED and the loop continues from the next index with only a
`"blocked"` result entry appended — `execute_task` is never invoked on it
(the continuation is literally the non-executing branch, so the task never
reaches IN_PROGRESS) — and in the final plan the task's status is still
BLOCKED. -/
theorem blocked_when_dependency_unmet (env : ExecEnv) (fuel : Nat) (plan : Plan)
    (res : ExecResults) (t : Task)
    (h1 : plan.is_complete = false)
    (h2 : plan.getCurrentTask = some t)
    (h3 : ∃ d ∈ t.dependencies, depMet plan d = false) :
    execPlanLoop env (fuel + 1) plan res =
      execPlanLoop env fuel
        (updateCurrent plan (fun x => { x with status := .blocked })).advance
        { res with task_results := res.task_results ++ [blockedEntry t] }
    ∧ (execPlanLoop env (fuel + 1) plan res).1.tasks[plan.current_task_index]? =
        some { t with status := .blocked } := by
  have hdep : check_dependencies t plan = false := check_dependencies_eq_false.mpr h3
  refine ⟨execPlanLoop_blocked env fuel plan res h1 h2 hdep, ?_⟩
  rw [execPlanLoop_blocked env fuel plan res h1 h2 hdep]
  rw [execPlanLoop_untouched env fuel _ _ _ (by rw [advance_index, updateCurrent_index]; omega)]
  rw [advance_tasks]
  simp only [updateCurrent_tasks, updateCurrent_index]
  rw [getElem?_modifyAt_self, (getCurrentTask_eq h2).2]
  rfl

/-- C4 witness: the first task of a plan depends on an id that no task
carries, so it ends BLOCKED while the run moves past it. -/
theorem blocked_when_dependency_unmet_witness :
    (planUnmetDep.is_complete = false
     ∧ planUnmetDep.getCurrentTask = some taskUnmetDep
     ∧ ∃ d ∈ taskUnmetDep.dependencies, depMet planUnmetDep d = false)
    ∧ (execPlanLoop envNoTools 3 planUnmetDep (initResults planUnmetDep)).1.tasks[planUnmetDep.current_task_index]?
        = some { taskUnmetDep with status := .blocked } :=
  ⟨⟨rfl, rfl, ⟨"ghost", by decide, rfl⟩⟩,
   (blocked_when_dependency_unmet envNoTools 2 planUnmetDep (initResults planUnmetDep)
      taskUnmetDep rfl rfl ⟨"ghost", by decide, rfl⟩).2⟩

/-- C6 counterexample: the oracle reply `"3"` is valid JSON whose task list
is absent, yet `create_plan` does not return a heuristic-fallback Plan — it
raises `AttributeError` (`plan_data.get("tasks")` on the non-dict `3`). -/
theorem create_plan_nonobject_raises :
    create_plan (.valid (.num 3)) "find housing scheme" "plan_1" =
      .error .attributeError := rfl

/-- C6 (amended): whenever parsing the oracle reply yields a JSON object
(this covers every invalid reply with no `{...}` substring, via the default
`{"tasks": []}`, and every reply whose extracted or direct JSON is an
object) whose task list is absent, empty, or contains non-object entries,
`create_plan` returns (never raises) the deterministic heuristic plan: two
tasks {eligibility-check → scheme-retrieval} when the goal carries an
eligibility/apply cue, else one scheme-retrieval task — always at least one
task.  (A reply that is valid non-object JSON, or invalid JSON whose
`{...}` substring fails to parse again, instead raises — see the
counterexample.) -/
theorem create_plan_heuristic_fallback (resp : ParseOutcome) (goal plan_id : String)
    (fields : List (String × PyVal))
    (hresp : parse_plan_response resp = .ok (.obj fields))
    (hinv : tasksAreValid (assocGet fields "tasks") = false) :
    ∃ out, create_plan resp goal plan_id = .ok out
      ∧ 1 ≤ out.plan.tasks.length
      ∧ (wants_eligibility goal = true →
          out.plan.tasks.map (fun t => (t.id, t.tool_name, t.dependencies)) =
            [("task_1", some "eligibility_checker", ([] : List String)),
             ("task_2", some "scheme_retriever", ["task_1"])])
      ∧ (wants_eligibility goal = false →
          out.plan.tasks.map (fun t => (t.id, t.tool_name, t.dependencies)) =
            [("task_1", some "scheme_retriever", ([] : List String))]) := by
  unfold create_plan
  rw [hresp]
  dsimp only
  rw [if_neg (by rw [hinv]; decide)]
  rw [assocGet_assocSet_self]
  simp only [Option.getD_some]
  cases hw : wants_eligibility goal with
  | true =>
    simp only [heuristic_tasks, hw, if_true, create_tasks, create_tasks_go,
      assocGet, pyStrOr, pyStrOpt, pyStr]
    refine ⟨_, rfl, ?_, ?_, ?_⟩
    · exact (by omega : (1 : Nat) ≤ 2)
    · intro _
      rfl
    · intro hfalse
      cases hfalse
  | false =>
    simp only [heuristic_tasks, hw, if_false, create_tasks, create_tasks_go,
      assocGet, pyStrOr, pyStrOpt, pyStr]
    refine ⟨_, rfl, ?_, ?_, ?_⟩
    · exact (by omega : (1 : Nat) ≤ 1)
    · intro htrue
      cases htrue
    · intro _
      rfl

/-- C6 amended witness: an oracle reply that is invalid JSON with no
object substring, for the goal "qualify me", produces the two-task
eligibility plan. -/
theorem create_plan_heuristic_fallback_witness :
    (parse_plan_response .invalidNoBrace =
      .ok (.obj [("tasks", .arr []), ("missing_info", .arr []),
                 ("clarifying_questions", .arr [])]))
    ∧ (tasksAreValid (assocGet [("tasks", PyVal.arr []), ("missing_info", PyVal.arr []),
        ("clarifying_questions", PyVal.arr [])] "tasks") = false)
    ∧ ∃ out, create_plan .invalidNoBrace "qualify me" "plan_w" = .ok out
        ∧ 1 ≤ out.plan.tasks.length
        ∧ (wants_eligibility "qualify me" = true →
            out.plan.tasks.map (fun t => (t.id, t.tool_name, t.dependencies)) =
              [("task_1", some "eligibility_checker", ([] : List String)),
               ("task_2", some "scheme_retriever", ["task_1"])])
        ∧ (wants_eligibility "qualify me" = false →
            out.plan.tasks.map (fun t => (t.id, t.tool_name, t.dependencies)) =
              [("task_1", some "scheme_retriever", ([] : List String))]) :=
  ⟨rfl, rfl, create_plan_heuristic_fallback .invalidNoBrace "qualify me" "plan_w" _ rfl rfl⟩

/-- C7 counterexample: an error raised while the state machine is in
RESPONDING (e.g. the oracle call inside `_generate_response` raising after
the RESPONDING transition) makes `_handle_error` itself raise
`InvalidStateTransitionError` — RESPONDING has no edge to ERROR_RECOVERY —
so `process_input` propagates that error instead of returning the localized
message. -/
theorem handle_error_responding_propagates :
    handle_error false "tamil" { current_state := .responding } "unexpected_error" "boom" =
      ({ current_state := .responding },
       .error { from_state := .responding, to_state := .error_recovery }) := rfl

/-- C7 (amended): when the error is raised while the machine is in a state
with an edge to ERROR_RECOVERY (LISTENING, UNDERSTANDING, PLANNING,
EXECUTING, EVALUATING) or in ERROR_RECOVERY itself, `_handle_error` returns
the localized generic message with `requires_input=true` and type
`"error"`, the machine passes through ERROR_RECOVERY and ends in IDLE, and
no transition to TERMINATED is recorded.  From IDLE, RESPONDING or
WAITING_FOR_INPUT the recovery transition itself raises and the error
propagates out of `process_input` (see the counterexample). -/
theorem handle_error_recovers (debug : Bool) (language : String) (sm : StateMachine)
    (error_type error_message : String)
    (h : (VALID_TRANSITIONS sm.current_state).contains .error_recovery = true
         ∨ sm.current_state = .error_recovery) :
    ∃ resp sm', handle_error debug language sm error_type error_message = (sm', .ok resp)
      ∧ resp.requires_input = true
      ∧ resp.type = "error"
      ∧ sm'.current_state = .idle
      ∧ (debug = false → resp.text = get_error_message language error_type)
      ∧ (∀ tr ∈ sm'.transition_history,
          tr ∈ sm.transition_history ∨ tr.to_state = .error_recovery
            ∨ tr.to_state = .idle) := by
  by_cases hc : sm.current_state = .error_recovery
  · unfold handle_error
    rw [transition_same hc.symm]
    dsimp only
    rw [transition_valid (by rw [hc]; decide) (by rw [hc]; decide)]
    dsimp only
    refine ⟨_, _, rfl, rfl, rfl, rfl, ?_, ?_⟩
    · intro hd
      rw [hd]
      simp
    · intro tr htr
      rcases List.mem_append.mp htr with hmem | hmem
      · exact Or.inl hmem
      · rw [List.mem_singleton] at hmem
        subst hmem
        exact Or.inr (Or.inr rfl)
  · have hcon : (VALID_TRANSITIONS sm.current_state).contains .error_recovery = true :=
      h.resolve_right hc
    unfold handle_error
    rw [transition_valid (fun he => hc he.symm) hcon]
    dsimp only
    rw [transition_valid
      (fun he => (by decide : ¬ (AgentState.idle = AgentState.error_recovery)) he)
      ((by decide :
        (VALID_TRANSITIONS AgentState.error_recovery).contains AgentState.idle = true))]
    dsimp only
    refine ⟨_, _, rfl, rfl, rfl, rfl, ?_, ?_⟩
    · intro hd
      rw [hd]
      simp
    · intro tr htr
      rcases List.mem_append.mp htr with hmem | hmem
      · rcases List.mem_append.mp hmem with hmem' | hmem'
        · exact Or.inl hmem'
        · rw [List.mem_singleton] at hmem'
          subst hmem'
          exact Or.inr (Or.inl rfl)
      · rw [List.mem_singleton] at hmem
        subst hmem
        exact Or.inr (Or.inr rfl)

/-- C7 amended witness: an execution error surfacing while EXECUTING is
turned into the localized Marathi message, ending in IDLE. -/
theorem handle_error_recovers_witness :
    ((VALID_TRANSITIONS AgentState.executing).contains .error_recovery = true
      ∨ AgentState.executing = .error_recovery)
    ∧ ∃ resp sm', handle_error false "marathi" { current_state := .executing }
          "execution_error" "tool blew up" = (sm', .ok resp)
        ∧ resp.requires_input = true
        ∧ resp.type = "error"
        ∧ sm'.current_state = .idle
        ∧ (false = false → resp.text = get_error_message "marathi" "execution_error")
        ∧ (∀ tr ∈ sm'.transition_history,
            tr ∈ ({ current_state := .executing } : StateMachine).transition_history
              ∨ tr.to_state = .error_recovery ∨ tr.to_state = .idle) :=
  ⟨Or.inl (by decide),
   handle_error_recovers false "marathi" { current_state := .executing }
     "execution_error" "tool blew up" (Or.inl (by decide))⟩

/-- C10 witness: a replan that raises at the ceiling still leaves the
original plan's revision count incremented from 5 to 6. -/
theorem replan_mutates_original_witness :
    (5 + 1 > 5)
    ∧ ((replan 5 .invalidNoBrace "plan_c"
          { id := "p", goal := "g", revision_count := 5 }).2 = .error .planningLimitExceeded
       ∧ (replan 5 .invalidNoBrace "plan_c"
          { id := "p", goal := "g", revision_count := 5 }).1.revision_count = 5 + 1) :=
  ⟨by decide,
   (replan_mutates_original 5 .invalidNoBrace "plan_c"
      { id := "p", goal := "g", revision_count := 5 }).2 (by decide)⟩

end VoiceLang
